import Mathlib

/-!
Verification development for the bizzie food-ordering backend
(cart → order checkout, order status machine, Paystack payment
initialization / verification, and webhook handling).

The Lean definitions below are a shallow embedding of the Python source:
Django model methods become pure functions, request handlers become
functions from an explicit state to a (response, new state) pair, and the
relational rows become Lean structures.  Monetary amounts and timestamps
are modelled as `Nat`; status fields are modelled as the `String` values
the source stores (the source keeps them as free strings, not enums).
-/

/-- PYTHONIC truthiness for an optional string: `None` and `""` are falsy. -/
def strTruthy (s : Option String) : Option String :=
  match s with
  | some t => if t = "" then none else some t
  | none => none

/- ===================== menu/models.py ===================== -/

/-- Food row: `price` and optional `discount_price` (menu/models.py). -/
structure Food where
  name : String
  price : Nat
  discount_price : Option Nat
  deriving Repr, DecidableEq

/-- Source: `return self.discount_price if self.discount_price else self.price`
(a zero discount price is falsy in Python). -/
def Food.current_price (f : Food) : Nat :=
  match f.discount_price with
  | some d => if d = 0 then f.price else d
  | none => f.price

/- ===================== cart/models.py ===================== -/

/-- CartItem row: quantity, the price snapshot captured at add time, and
selected options (cart/models.py). -/
structure CartItem where
  food : Food
  quantity : Nat
  price_snapshot : Nat
  selected_variant : Option String
  selected_addons : List String
  notes : Option String
  deriving Repr, DecidableEq

/-- Source: `return self.food.current_price` — the LIVE price, not the snapshot. -/
def CartItem.unit_price (it : CartItem) : Nat := it.food.current_price

/-- Source: `return self.quantity * float(self.unit_price)`. -/
def CartItem.total_price (it : CartItem) : Nat := it.quantity * it.unit_price

/-- Cart row with its line items (cart/models.py). -/
structure Cart where
  user : Nat
  is_active : Bool
  items : List CartItem
  deriving Repr, DecidableEq

/-- Source: `self.items.aggregate(total=models.Sum('quantity'))`. -/
def Cart.total_items (c : Cart) : Nat := (c.items.map (fun it => it.quantity)).sum

/-- Source: sum of `item.total_price` over all items. -/
def Cart.subtotal (c : Cart) : Nat := (c.items.map (fun it => it.total_price)).sum

/-- Source: `return self.subtotal` (no tax/delivery yet). -/
def Cart.total (c : Cart) : Nat := c.subtotal

/- ===================== orders/models.py ===================== -/

/-- Calendar date used for the `strftime('%Y%m%d')` component of order numbers. -/
structure Date where
  year : Nat
  month : Nat
  day : Nat
  deriving Repr, DecidableEq

/-- Two-digit zero padding, as `%m` / `%d` produce. -/
def pad2 (n : Nat) : String := if n < 10 then "0" ++ toString n else toString n

/-- The `%Y%m%d` format of a date. -/
def Date.strftimeYmd (d : Date) : String := toString d.year ++ pad2 d.month ++ pad2 d.day

/-- Order row (orders/models.py). -/
structure Order where
  order_number : String
  user : Nat
  delivery_address : String
  phone_number : String
  delivery_notes : String
  status : String
  payment_status : String
  payment_reference : Option String
  total_amount : Nat
  paid_amount : Nat
  items_count : Nat
  is_paid : Bool
  admin_notes : Option String
  paid_at : Option Nat
  shipped_at : Option Nat
  completed_at : Option Nat
  deriving Repr, DecidableEq

/-- Source `Order.generate_order_number`: `"ORD" + timestamp + random_str` where
`timestamp = self.created_at.strftime('%Y%m%d') if self.created_at else '00000000'`
and `random_str` is six random digits.  There is no uniqueness check and no
retry; the result is a pure function of the date and the random draw.  At the
first `save()` (the only moment the number is generated) `created_at` is still
`None`, so the date component is the `'00000000'` placeholder. -/
def Order.generate_order_number (created_at : Option Date) (random_str : String) : String :=
  "ORD" ++ (match created_at with
            | some d => d.strftimeYmd
            | none => "00000000") ++ random_str

/-- Source: `self.status == 'pending' and not self.is_paid`. -/
def Order.can_be_cancelled (o : Order) : Bool :=
  o.status == "pending" && !o.is_paid

/-- Source `Order.mark_as_paid`: sets payment_status, is_paid, paid_amount,
stamps `paid_at = timezone.now()` unconditionally, and stores the reference
when one is given. -/
def Order.mark_as_paid (o : Order) (payment_reference : Option String) (now : Nat) : Order :=
  let o1 := { o with
    payment_status := "paid"
    is_paid := true
    paid_amount := o.total_amount
    paid_at := some now }
  match payment_reference with
  | some r => { o1 with payment_reference := some r }
  | none => o1

/-- Source `Order.update_status`: overwrites `status`, stamps `shipped_at` /
`completed_at` when entering those statuses from a different one, and stores
`admin_notes` when truthy.  The model itself performs no transition
validation. -/
def Order.update_status (o : Order) (new_status : String) (admin_notes : String) (now : Nat) : Order :=
  let old_status := o.status
  let o1 := { o with status := new_status }
  let o2 :=
    if new_status == "shipped" && old_status != "shipped" then
      { o1 with shipped_at := some now }
    else if new_status == "completed" && old_status != "completed" then
      { o1 with completed_at := some now }
    else o1
  if admin_notes != "" then { o2 with admin_notes := some admin_notes } else o2

/-- OrderItem row: denormalized per-line snapshot (orders/models.py). -/
structure OrderItem where
  food : Option Food
  food_name : String
  food_price : Nat
  quantity : Nat
  selected_variant : Option String
  selected_addons : List String
  notes : Option String
  deriving Repr, DecidableEq

/-- Source: `return self.quantity * float(self.food_price)`. -/
def OrderItem.total_price (it : OrderItem) : Nat := it.quantity * it.food_price

/-- OrderStatusHistory row (orders/models.py). -/
structure OrderStatusHistory where
  old_status : String
  new_status : String
  changed_by : Option Nat
  notes : Option String
  deriving Repr, DecidableEq

/- ===================== orders/serializers.py ===================== -/

/-- Everything `CreateOrderSerializer.create` persists: the order, its item
snapshots, and the emptied cart. -/
structure CreateOrderResult where
  order : Order
  order_items : List OrderItem
  cart_after : Cart
  deriving Repr, DecidableEq

namespace CreateOrderSerializer

/-- Source `CreateOrderSerializer.validate` + `create` (orders/serializers.py).
`cart` is the user's active cart if one exists; `random_str` is the random
six-digit draw consumed by `Order.generate_order_number` inside `save()`.
Note the source snapshots each line at `cart_item.food.current_price` (the
live menu price), not at `cart_item.price_snapshot`, and computes
`total_amount = cart.total`, which also uses live prices. -/
def create (cart : Option Cart) (user : Nat)
    (delivery_address phone_number : String)
    (delivery_notes note : Option String)
    (random_str : String) : Except String CreateOrderResult :=
  if delivery_address = "" then .error "Delivery address is required."
  else if phone_number = "" then .error "Phone number is required for delivery."
  else
    let delivery_instruction :=
      (((strTruthy delivery_notes).orElse (fun _ => strTruthy note)).getD "")
    match cart with
    | none => .error "No active cart found."
    | some cart =>
      if cart.items.length = 0 then .error "Cart is empty."
      else
        let total_amount := cart.total
        let order : Order :=
          { order_number := Order.generate_order_number none random_str
            user := user
            delivery_address := delivery_address
            phone_number := phone_number
            delivery_notes := delivery_instruction
            status := "pending"
            payment_status := "pending"
            payment_reference := none
            total_amount := total_amount
            paid_amount := 0
            items_count := cart.total_items
            is_paid := false
            admin_notes := none
            paid_at := none
            shipped_at := none
            completed_at := none }
        let order_items := cart.items.map (fun ci =>
          { food := some ci.food
            food_name := ci.food.name
            food_price := ci.food.current_price
            quantity := ci.quantity
            selected_variant := ci.selected_variant
            selected_addons := ci.selected_addons
            notes := ci.notes : OrderItem })
        .ok { order := order
              order_items := order_items
              cart_after := { cart with items := [] } }

end CreateOrderSerializer

/-- SPEC-side definition (for comparison only), following the spec's words:
`total_amount` = sum(line.quantity × line.unit_price_snapshot) over all lines. -/
def cartSnapshotTotal (c : Cart) : Nat :=
  (c.items.map (fun it => it.quantity * it.price_snapshot)).sum

/- ===================== orders/views.py : UpdateOrderStatusView ===================== -/

/-- The `ORDER_STATUS` choices of the Order model. -/
def ORDER_STATUS : List String := ["pending", "shipped", "completed", "cancelled"]

/-- Response of an orders-app endpoint: HTTP code and primary message. -/
structure ApiResponse where
  code : Nat
  message : String
  deriving Repr, DecidableEq

/-- One order together with its status-history rows, the state a
single-order endpoint reads and writes. -/
structure OrderState where
  order : Order
  history : List OrderStatusHistory
  deriving Repr, DecidableEq

namespace UpdateOrderStatusSerializer

/-- Source `UpdateOrderStatusSerializer.validate_status`: rejects when the
order is already `completed` or `cancelled`; every other current status
passes, whatever the requested value. -/
def validate_status (order_status : String) (value : String) : Except String String :=
  if order_status = "completed" then .error "Cannot change status of a completed order."
  else if order_status = "cancelled" then .error "Cannot change status of a cancelled order."
  else .ok value

end UpdateOrderStatusSerializer

namespace UpdateOrderStatusView

/-- Source `UpdateOrderStatusView.patch`: validate the requested status (a
`ChoiceField` over ORDER_STATUS plus `validate_status`), and if valid append a
history row and apply `Order.update_status`; an invalid request returns 400
and writes nothing. -/
def patch (st : OrderState) (requested : String) (admin_notes : String)
    (changed_by : Option Nat) (now : Nat) : ApiResponse × OrderState :=
  if requested ∉ ORDER_STATUS then
    ({ code := 400, message := "Invalid choice" }, st)
  else
    match UpdateOrderStatusSerializer.validate_status st.order.status requested with
    | .error e => ({ code := 400, message := e }, st)
    | .ok new_status =>
      let entry : OrderStatusHistory :=
        { old_status := st.order.status
          new_status := new_status
          changed_by := changed_by
          notes := some admin_notes }
      ({ code := 200, message := "Order status updated to " ++ new_status },
       { order := st.order.update_status new_status admin_notes now
         history := st.history ++ [entry] })

end UpdateOrderStatusView

/- ===================== orders/views.py : PaystackWebhookView ===================== -/

/-- Parsed `data` object of a Paystack webhook body; both fields are
`payment_data.get(...)` lookups and may be absent. -/
structure WebhookData where
  reference : Option String
  amount : Option Nat
  deriving Repr, DecidableEq

/-- Parsed webhook body: an event name and its data object. -/
structure WebhookBody where
  event : String
  data : WebhookData
  deriving Repr, DecidableEq

/-- The orders rows plus the append-only status-history rows the webhook
handlers touch. -/
structure WebhookDb where
  orders : List Order
  history : List OrderStatusHistory
  deriving Repr, DecidableEq

/-- Model of Python's `hmac.compare_digest` for hex digests: a length check
followed by a full, non-short-circuiting accumulation of per-character
differences — the comparison inspects every character pair regardless of
where the first mismatch occurs. -/
def compare_digest (a b : String) : Bool :=
  if a.toList.length ≠ b.toList.length then false
  else ((a.toList.zip b.toList).foldl
    (fun acc p => acc ||| (p.1.toNat ^^^ p.2.toNat)) 0) == 0

namespace PaystackWebhookView

/-- Source `PaystackWebhookView.verify_signature`: with no
`PAYSTACK_WEBHOOK_SECRET` configured the check is skipped (returns True);
otherwise the HMAC-SHA512 hexdigest of the raw body under the secret is
compared against the header with `hmac.compare_digest`.  The HMAC primitive
itself is passed in as `hmacSha512 secret payload`. -/
def verify_signature (hmacSha512 : String → String → String)
    (webhook_secret : Option String) (payload : String) (signature : String) : Bool :=
  match webhook_secret with
  | none => true
  | some secret => compare_digest (hmacSha512 secret payload) signature

/-- Source `PaystackWebhookView.handle_successful_payment`.  The division
`payment_data.get('amount') / 100` runs before the order lookup and is
unguarded: a missing amount raises a TypeError (modelled as `Except.error`)
before any lookup or state change.  Otherwise the order matching the
reference is marked paid (unconditionally — no already-paid check) and a
history row logging the payment is appended. -/
def handle_successful_payment (db : WebhookDb) (payload : WebhookBody)
    (now : Nat) : Except String (ApiResponse × WebhookDb) :=
  let payment_data := payload.data
  let reference := payment_data.reference
  match payment_data.amount with
  | none => .error "TypeError: unsupported operand type(s) for /: NoneType and int"
  | some a =>
    let amount := a / 100
    match db.orders.find? (fun o => o.payment_reference == reference) with
    | none => .ok ({ code := 404, message := "Order not found" }, db)
    | some order =>
      let updated := order.mark_as_paid reference now
      let entry : OrderStatusHistory :=
        { old_status := order.status
          new_status := order.status
          changed_by := none
          notes := some ("Payment successful via Paystack. Amount: ₦" ++ toString amount) }
      .ok ({ code := 200, message := "Payment processed successfully" },
           { orders := db.orders.map (fun o =>
               if o.payment_reference == reference then updated else o)
             history := db.history ++ [entry] })

/-- Source `PaystackWebhookView.handle_failed_payment`: sets
`payment_status = 'failed'` on the matching order and appends a history row;
`status` is untouched. -/
def handle_failed_payment (db : WebhookDb) (payload : WebhookBody) :
    Except String (ApiResponse × WebhookDb) :=
  let reference := payload.data.reference
  match db.orders.find? (fun o => o.payment_reference == reference) with
  | none => .ok ({ code := 404, message := "Order not found" }, db)
  | some order =>
    let updated := { order with payment_status := "failed" }
    let entry : OrderStatusHistory :=
      { old_status := order.status
        new_status := order.status
        changed_by := none
        notes := some "Payment failed via Paystack" }
    .ok ({ code := 200, message := "Payment failure recorded" },
         { orders := db.orders.map (fun o =>
             if o.payment_reference == reference then updated else o)
           history := db.history ++ [entry] })

/-- Source `PaystackWebhookView.post`: reject on signature failure with 400
and no further processing, then dispatch on the event name; unrecognized
events are acknowledged with 200 and no action. -/
def post (hmacSha512 : String → String → String) (webhook_secret : Option String)
    (db : WebhookDb) (raw_body : String) (body : WebhookBody)
    (signature : String) (now : Nat) : Except String (ApiResponse × WebhookDb) :=
  if !(verify_signature hmacSha512 webhook_secret raw_body signature) then
    .ok ({ code := 400, message := "Invalid signature" }, db)
  else if body.event == "charge.success" then
    handle_successful_payment db body now
  else if body.event == "charge.failed" then
    handle_failed_payment db body
  else
    .ok ({ code := 200, message := "Webhook received" }, db)

end PaystackWebhookView

/- ===================== payments/models.py ===================== -/

/-- Payment row (payments/models.py).  Note the model has no field for an
error message or failure reason. -/
structure Payment where
  reference : String
  order : Order
  user : Nat
  amount : Nat
  currency : String
  status : String
  paystack_authorization_url : Option String
  paystack_access_code : Option String
  paid_at : Option Nat
  deriving Repr, DecidableEq

/-- Source: `self.status == 'successful'`. -/
def Payment.is_successful (p : Payment) : Bool := p.status == "successful"

/-- Source `Payment.mark_as_successful`: stamps the payment successful with
`paid_at = now` and calls `self.order.mark_as_paid(self.reference)`. -/
def Payment.mark_as_successful (p : Payment) (now : Nat) : Payment :=
  { p with
    status := "successful"
    paid_at := some now
    order := p.order.mark_as_paid (some p.reference) now }

/-- Source `Payment.mark_as_failed(self, reason="")`: sets
`status = 'failed'` and saves.  The `reason` argument is accepted but never
stored — the Payment row carries no error-message field. -/
def Payment.mark_as_failed (p : Payment) (reason : String) : Payment :=
  { p with status := "failed" }

/- ===================== payments/services.py ===================== -/

/-- Outcome of the HTTP exchange with Paystack's verify endpoint, as the
service code can observe it: either a JSON document (its top-level `status`
flag, the transaction's `data.status` string, and its `message`), or a
`requests` exception (timeout, connection failure, non-2xx raised by
`raise_for_status`). -/
inductive GatewayVerifyOutcome where
  | http (status_flag : Bool) (tx_status : String) (message : String)
  | networkError (msg : String)
  deriving Repr, DecidableEq

/-- Dictionary returned by `PaystackService.verify_transaction`. -/
structure GatewayResult where
  success : Bool
  message : String
  deriving Repr, DecidableEq

/-- Source `PaystackService.verify_transaction`: success only when the JSON
reports `status` truthy and `data.status == "success"`; any
`RequestException` (timeout included) is swallowed into
`{"success": False, "message": "Network error: ..."}` — indistinguishable to
the caller from a gateway-reported failure. -/
def PaystackService.verify_transaction (outcome : GatewayVerifyOutcome) : GatewayResult :=
  match outcome with
  | .http status_flag tx_status message =>
    if status_flag && tx_status == "success" then
      { success := true, message := "Transaction verified successfully" }
    else
      { success := false, message := message }
  | .networkError e => { success := false, message := "Network error: " ++ e }

/-- Outcome of the HTTP exchange with Paystack's initialize endpoint:
a successful JSON (authorization URL and access code), a gateway-reported
failure with its message, or a raised exception caught by the view's
`except Exception` handler. -/
inductive GatewayInitOutcome where
  | ok (authorization_url access_code : String)
  | fail (message : String)
  | exn (e : String)
  deriving Repr, DecidableEq

/- ===================== payments/views.py ===================== -/

/-- Response of a payments-app endpoint: HTTP code, the `success` flag, the
primary message/error, and the `details` field when present. -/
structure PayResponse where
  code : Nat
  success : Bool
  message : String
  details : String
  deriving Repr, DecidableEq

/-- Result of `VerifyPaymentView.post`: the response, the payment rows after
the request, and whether the Paystack verify endpoint was called. -/
structure VerifyOutput where
  response : PayResponse
  payments : List Payment
  gateway_called : Bool
  deriving Repr, DecidableEq

namespace VerifyPaymentView

/-- Source `VerifyPaymentView.post`: look up the payment by reference scoped
to the requesting user (404 "Payment not found" if absent); short-circuit
with the cached result when already successful; otherwise call Paystack and
mark the payment successful or failed accordingly. -/
def post (payments : List Payment) (request_user : Nat) (reference : String)
    (gateway : GatewayVerifyOutcome) (now : Nat) : VerifyOutput :=
  match payments.find? (fun p => p.reference == reference && p.user == request_user) with
  | none =>
    { response := { code := 404, success := false, message := "Payment not found", details := "" }
      payments := payments
      gateway_called := false }
  | some payment =>
    if payment.is_successful then
      { response := { code := 200, success := true, message := "Payment already verified", details := "" }
        payments := payments
        gateway_called := false }
    else
      let result := PaystackService.verify_transaction gateway
      if result.success then
        let updated := payment.mark_as_successful now
        { response := { code := 200, success := true, message := "Payment verified successfully!", details := "" }
          payments := payments.map (fun q =>
            if q.reference == reference && q.user == request_user then updated else q)
          gateway_called := true }
      else
        let updated := payment.mark_as_failed result.message
        { response := { code := 400, success := false, message := "Payment verification failed", details := result.message }
          payments := payments.map (fun q =>
            if q.reference == reference && q.user == request_user then updated else q)
          gateway_called := true }

end VerifyPaymentView

/-- Result of `InitializePaymentView.post`: the response and the payment rows
after the request. -/
structure InitOutput where
  response : PayResponse
  payments : List Payment
  deriving Repr, DecidableEq

namespace InitializePaymentView

/-- Source reference-generation loop: `reference = self.generate_reference()`
then `while Payment.objects.filter(reference=reference).exists(): reference =
self.generate_reference()`.  The successive random draws are modelled as the
`candidates` list; the loop takes the first draw not colliding with an
existing row (and, in the source, spins for as long as draws collide). -/
def firstFreshReference (payments : List Payment) (candidates : List String) : Option String :=
  match candidates with
  | [] => none
  | c :: rest =>
    if payments.any (fun p => p.reference == c) then firstFreshReference payments rest
    else some c

/-- Source `InitializePaymentSerializer.validate_order_id` +
`InitializePaymentView.post`: validate the order (exists, not already paid,
not cancelled, owned by the requester), create a `pending` Payment with a
fresh unique reference, then call Paystack initialize; on success save the
authorization data, on gateway failure or exception mark the just-created
Payment failed and surface the error — the row is kept either way. -/
def post (payments : List Payment) (order : Option Order) (request_user : Nat)
    (candidates : List String) (gateway : GatewayInitOutcome) : InitOutput :=
  match order with
  | none =>
    { response := { code := 400, success := false, message := "Order not found.", details := "" }
      payments := payments }
  | some order =>
    if order.is_paid then
      { response := { code := 400, success := false, message := "Order is already paid", details := "" }
        payments := payments }
    else if order.status == "cancelled" then
      { response := { code := 400, success := false, message := "Cannot pay for a cancelled order.", details := "" }
        payments := payments }
    else if order.user != request_user then
      { response := { code := 404, success := false, message := "Not found.", details := "" }
        payments := payments }
    else
      match firstFreshReference payments candidates with
      | none =>
        { response := { code := 0, success := false
                        message := "model boundary: the source loops until a fresh reference is drawn"
                        details := "" }
          payments := payments }
      | some reference =>
        let payment : Payment :=
          { reference := reference
            order := order
            user := request_user
            amount := order.total_amount
            currency := "NGN"
            status := "pending"
            paystack_authorization_url := none
            paystack_access_code := none
            paid_at := none }
        match gateway with
        | .ok url access_code =>
          { response := { code := 200, success := true, message := "Payment link generated successfully", details := "" }
            payments := payments ++ [{ payment with
              paystack_authorization_url := some url
              paystack_access_code := some access_code }] }
        | .fail msg =>
          { response := { code := 400, success := false, message := "Failed to create payment link", details := msg }
            payments := payments ++ [payment.mark_as_failed msg] }
        | .exn e =>
          { response := { code := 500, success := false, message := "Payment initialization failed", details := e }
            payments := payments ++ [payment.mark_as_failed ("Server error: " ++ e)] }

end InitializePaymentView

/- ===================== helper lemmas ===================== -/

/-- Bitwise or of naturals is zero exactly when both are. -/
theorem lor_eq_zero_iff (m n : Nat) : m ||| n = 0 ↔ m = 0 ∧ n = 0 := by
  constructor
  · intro h
    have hb : ∀ i, (Nat.testBit m i || Nat.testBit n i) = false := by
      intro i
      have := congrArg (fun x => Nat.testBit x i) h
      simpa [Nat.testBit_lor] using this
    constructor
    · apply Nat.eq_of_testBit_eq
      intro i
      simpa using (Bool.or_eq_false_iff.mp (hb i)).1
    · apply Nat.eq_of_testBit_eq
      intro i
      simpa using (Bool.or_eq_false_iff.mp (hb i)).2
  · rintro ⟨rfl, rfl⟩
    rfl

/-- Characters agree exactly when their code points do. -/
theorem char_toNat_eq_iff (a b : Char) : a.toNat = b.toNat ↔ a = b := by
  constructor
  · intro h
    apply Char.eq_of_val_eq
    apply UInt32.eq_of_val_eq
    apply Fin.eq_of_val_eq
    exact h
  · intro h
    rw [h]

/-- The difference accumulator of `compare_digest` vanishes exactly when it
started at zero and every zipped pair agrees. -/
theorem foldl_orXor_eq_zero (l : List (Char × Char)) (acc : Nat) :
    (l.foldl (fun a p => a ||| (p.1.toNat ^^^ p.2.toNat)) acc = 0) ↔
      (acc = 0 ∧ ∀ p ∈ l, p.1 = p.2) := by
  induction l generalizing acc with
  | nil => simp
  | cons p rest ih =>
    rw [List.foldl_cons, ih, lor_eq_zero_iff, Nat.xor_eq_zero, char_toNat_eq_iff]
    constructor
    · rintro ⟨⟨h0, hp⟩, hrest⟩
      refine ⟨h0, ?_⟩
      intro q hq
      rcases List.mem_cons.mp hq with hq | hq
      · rw [hq]; exact hp
      · exact hrest q hq
    · rintro ⟨h0, hall⟩
      exact ⟨⟨h0, hall p (List.mem_cons_self p rest)⟩,
             fun q hq => hall q (List.mem_cons_of_mem p hq)⟩

/-- Two equal-length lists whose zipped pairs agree pointwise are equal. -/
theorem list_eq_of_zip_agree (xs : List Char) : ∀ ys : List Char,
    xs.length = ys.length → (∀ p ∈ xs.zip ys, p.1 = p.2) → xs = ys := by
  induction xs with
  | nil =>
    intro ys h _
    cases ys with
    | nil => rfl
    | cons y ys => simp at h
  | cons x xs ih =>
    intro ys h hp
    cases ys with
    | nil => simp at h
    | cons y ys =>
      have hxy : x = y := hp (x, y) (by simp [List.zip_cons_cons])
      have htail : xs = ys := by
        apply ih ys (by simpa using h)
        intro q hq
        exact hp q (by simp [List.zip_cons_cons, hq])
      rw [hxy, htail]

/-- Every pair in the zip of a list with itself is diagonal. -/
theorem zip_self_agree (xs : List Char) : ∀ p ∈ xs.zip xs, p.1 = p.2 := by
  induction xs with
  | nil => intro p hp; simp at hp
  | cons x rest ih =>
    intro p hp
    rw [List.zip_cons_cons, List.mem_cons] at hp
    rcases hp with hp | hp
    · rw [hp]
    · exact ih p hp

/-- Strings with equal character lists are equal. -/
theorem string_eq_of_toList_eq (a b : String) (h : a.toList = b.toList) : a = b := by
  cases a; cases b
  simp only [String.toList] at h
  exact congrArg String.mk h

/-- The modelled `hmac.compare_digest` decides string equality (it differs
from naive equality only in HOW it traverses, not in what it returns). -/
theorem compare_digest_eq_true_iff (a b : String) :
    compare_digest a b = true ↔ a = b := by
  unfold compare_digest
  by_cases hl : a.toList.length = b.toList.length
  · rw [if_neg (by simpa using hl), beq_iff_eq, foldl_orXor_eq_zero]
    constructor
    · rintro ⟨-, hp⟩
      exact string_eq_of_toList_eq a b (list_eq_of_zip_agree a.toList b.toList hl hp)
    · intro h
      subst h
      exact ⟨rfl, zip_self_agree a.toList⟩
  · rw [if_pos (by simpa using hl)]
    constructor
    · intro h
      simp at h
    · intro h
      subst h
      exact absurd rfl hl

/- ===================== concrete sample data ===================== -/

/-- A pending unpaid order used as a base for concrete scenarios. -/
def sampleOrder : Order :=
  { order_number := "ORD00000000123456"
    user := 1
    delivery_address := "12 Main"
    phone_number := "0700"
    delivery_notes := ""
    status := "pending"
    payment_status := "pending"
    payment_reference := none
    total_amount := 2200
    paid_amount := 0
    items_count := 3
    is_paid := false
    admin_notes := none
    paid_at := none
    shipped_at := none
    completed_at := none }

/-- A food with plain price 500 and no discount. -/
def c5food : Food := { name := "Jollof Rice", price := 500, discount_price := none }

/-- First customer's cart for the order-number collision scenario. -/
def c5cartA : Cart :=
  { user := 1, is_active := true
    items := [{ food := c5food, quantity := 1, price_snapshot := 500
                selected_variant := none, selected_addons := [], notes := none }] }

/-- Second customer's cart for the order-number collision scenario. -/
def c5cartB : Cart :=
  { user := 2, is_active := true
    items := [{ food := c5food, quantity := 2, price_snapshot := 500
                selected_variant := none, selected_addons := [], notes := none }] }

/-- CLAIM C5 (code bug): the spec requires order numbers to be regenerated on
a uniqueness collision, but `Order.generate_order_number` has no uniqueness
check and no retry.  Evaluating the code at the failing input: two order
creations whose six-digit random draws are forced to collide both receive
the identical order number ORD00000000123456 (the date part is the
`'00000000'` placeholder because `created_at` is unset at first save); with
the date set, the format is prefix + date + suffix as the spec says, but
still a pure function of the draw. -/
theorem C5_no_collision_retry :
    ((CreateOrderSerializer.create (some c5cartA) 1 "12 Main" "0700" none none "123456").map
        (fun r => r.order.order_number) = Except.ok "ORD00000000123456")
    ∧ ((CreateOrderSerializer.create (some c5cartB) 2 "5 Oak" "0800" none none "123456").map
        (fun r => r.order.order_number) = Except.ok "ORD00000000123456")
    ∧ Order.generate_order_number (some { year := 2026, month := 10, day := 12 }) "654321"
        = "ORD20261012654321" := by
  refine ⟨rfl, rfl, rfl⟩

/-- CLAIM C9: a "charge.success" webhook whose data object lacks the amount
field makes `handle_successful_payment` raise an unhandled TypeError (the
unguarded `payment_data.get('amount') / 100`) before any order lookup or
state change, instead of returning a structured response. -/
theorem C9_missing_amount_raises (db : WebhookDb) (body : WebhookBody) (now : Nat)
    (h : body.data.amount = none) :
    PaystackWebhookView.handle_successful_payment db body now =
      Except.error "TypeError: unsupported operand type(s) for /: NoneType and int" := by
  simp [PaystackWebhookView.handle_successful_payment, h]

/-- Witness for C9 at a concrete event with no amount field. -/
theorem C9_missing_amount_raises_witness :
    (({ event := "charge.success", data := { reference := some "r", amount := none } } : WebhookBody).data.amount = none)
    ∧ PaystackWebhookView.handle_successful_payment { orders := [sampleOrder], history := [] }
        { event := "charge.success", data := { reference := some "r", amount := none } } 0 =
        Except.error "TypeError: unsupported operand type(s) for /: NoneType and int" :=
  ⟨rfl, C9_missing_amount_raises _ _ 0 rfl⟩

/-- CLAIM C6: a webhook POST whose signature header differs from the
HMAC-SHA512 hexdigest of the raw body under the configured shared secret is
rejected with a 400 response and the state is returned unchanged; the
comparison goes through `compare_digest`, the constant-time
(non-short-circuiting) equality modelled above. -/
theorem C6_invalid_signature_rejected (hmacSha512 : String → String → String)
    (secret raw_body sig : String) (db : WebhookDb) (body : WebhookBody) (now : Nat)
    (h : hmacSha512 secret raw_body ≠ sig) :
    PaystackWebhookView.post hmacSha512 (some secret) db raw_body body sig now =
      Except.ok ({ code := 400, message := "Invalid signature" }, db) := by
  have hfalse : compare_digest (hmacSha512 secret raw_body) sig = false := by
    cases hc : compare_digest (hmacSha512 secret raw_body) sig with
    | false => rfl
    | true => exact absurd ((compare_digest_eq_true_iff _ _).mp hc) h
  simp [PaystackWebhookView.post, PaystackWebhookView.verify_signature, hfalse]

/-- Witness for C6 at a concrete mismatched signature. -/
theorem C6_invalid_signature_rejected_witness :
    ((fun (_ : String) (_ : String) => "feedbead") "sekrit" "raw body" ≠ "00000000")
    ∧ PaystackWebhookView.post (fun _ _ => "feedbead") (some "sekrit")
        { orders := [sampleOrder], history := [] } "raw body"
        { event := "charge.success", data := { reference := some "r", amount := some 5 } }
        "00000000" 7 =
        Except.ok ({ code := 400, message := "Invalid signature" },
                   { orders := [sampleOrder], history := [] }) :=
  ⟨by decide, C6_invalid_signature_rejected (fun _ _ => "feedbead") "sekrit" "raw body"
      "00000000" _ _ 7 (by decide)⟩

/-- An already-paid copy of the sample order, paid at time 50 via PAYREF1. -/
def samplePaidOrder : Order :=
  { sampleOrder with
    payment_status := "paid"
    is_paid := true
    paid_amount := 2200
    paid_at := some 50
    payment_reference := some "PAYREF1" }

/-- A successful payment row for `samplePaidOrder`, owned by user 1. -/
def c8payment : Payment :=
  { reference := "PAYREF1", order := samplePaidOrder, user := 1, amount := 2200
    currency := "NGN", status := "successful"
    paystack_authorization_url := none, paystack_access_code := none
    paid_at := some 50 }

/-- CLAIM C8: when the payment found for (reference, user) is already
successful, `VerifyPaymentView.post` returns the cached success response, the
payment rows are unchanged, and the gateway is not called — whatever the
gateway would have answered.  Hence a second and any later verify call
produce the identical result and never double-mark the order or re-stamp
anything. -/
theorem C8_verify_idempotent (payments : List Payment) (u : Nat) (ref : String)
    (gw : GatewayVerifyOutcome) (now : Nat) (p : Payment)
    (hfind : payments.find? (fun q => q.reference == ref && q.user == u) = some p)
    (hs : p.is_successful = true) :
    VerifyPaymentView.post payments u ref gw now =
      { response := { code := 200, success := true, message := "Payment already verified", details := "" }
        payments := payments
        gateway_called := false } := by
  simp [VerifyPaymentView.post, hfind, hs]

/-- Witness for C8 at a concrete successful payment (the gateway outcome is a
network error, demonstrating it is never consulted). -/
theorem C8_verify_idempotent_witness :
    ([c8payment].find? (fun q => q.reference == "PAYREF1" && q.user == 1) = some c8payment)
    ∧ (c8payment.is_successful = true)
    ∧ VerifyPaymentView.post [c8payment] 1 "PAYREF1" (.networkError "unreachable") 99 =
      { response := { code := 200, success := true, message := "Payment already verified", details := "" }
        payments := [c8payment]
        gateway_called := false } :=
  ⟨by decide, by decide,
   C8_verify_idempotent [c8payment] 1 "PAYREF1" (.networkError "unreachable") 99 c8payment
     (by decide) (by decide)⟩

/-- CLAIM C10: when the reference exists but every payment carrying it
belongs to a different user, `VerifyPaymentView.post` answers 404
"Payment not found", leaves every payment row unchanged, and never calls the
gateway. -/
theorem C10_verify_user_scoped (payments : List Payment) (u : Nat) (ref : String)
    (gw : GatewayVerifyOutcome) (now : Nat)
    (hexists : ∃ p ∈ payments, p.reference = ref)
    (hother : ∀ p ∈ payments, p.reference = ref → p.user ≠ u) :
    VerifyPaymentView.post payments u ref gw now =
      { response := { code := 404, success := false, message := "Payment not found", details := "" }
        payments := payments
        gateway_called := false } := by
  have hnone : payments.find? (fun q => q.reference == ref && q.user == u) = none := by
    rw [List.find?_eq_none]
    intro p hp hmatch
    rw [Bool.and_eq_true, beq_iff_eq, beq_iff_eq] at hmatch
    exact hother p hp hmatch.1 hmatch.2
  simp [VerifyPaymentView.post, hnone]

/-- Witness for C10: user 1 asks about a reference owned by user 2. -/
theorem C10_verify_user_scoped_witness :
    (∃ p ∈ [{ c8payment with user := 2 }], p.reference = "PAYREF1")
    ∧ VerifyPaymentView.post [{ c8payment with user := 2 }] 1 "PAYREF1"
        (.networkError "unreachable") 99 =
      { response := { code := 404, success := false, message := "Payment not found", details := "" }
        payments := [{ c8payment with user := 2 }]
        gateway_called := false } :=
  ⟨⟨{ c8payment with user := 2 }, by decide, by decide⟩,
   C10_verify_user_scoped [{ c8payment with user := 2 }] 1 "PAYREF1"
     (.networkError "unreachable") 99
     ⟨{ c8payment with user := 2 }, by decide, by decide⟩ (by decide)⟩

/-- A pending payment owned by user 3 against an unpaid order. -/
def c4payment : Payment :=
  { reference := "PAYREF3", order := { sampleOrder with user := 3 }, user := 3, amount := 2200
    currency := "NGN", status := "pending"
    paystack_authorization_url := none, paystack_access_code := none
    paid_at := none }

/-- COUNTEREXAMPLE to C4: a network-level failure of the gateway verify call
("Network error: ..." from `verify_transaction`) does NOT leave the Payment
unchanged — the view cannot distinguish it from a gateway-reported decline
and marks the pending Payment failed. -/
theorem C4_counterexample :
    ((VerifyPaymentView.post [c4payment] 3 "PAYREF3"
        (.networkError "HTTPSConnectionPool read timed out") 50).payments.map
        (fun p => p.status) = ["failed"])
    ∧ (c4payment.status = "pending")
    ∧ ((VerifyPaymentView.post [c4payment] 3 "PAYREF3"
        (.networkError "HTTPSConnectionPool read timed out") 50).response.code = 400)
    ∧ (("failed" : String) ≠ "pending") := by
  refine ⟨by decide, rfl, by decide, by decide⟩

/-- AMENDED C4: on a network-level failure the verify endpoint returns a 400
error carrying the network-error detail, marks the Payment failed (a state
mutation), and leaves the linked Order untouched (the failed row keeps the
order exactly as it was). -/
theorem C4_network_error_marks_failed (payments : List Payment) (u : Nat) (ref e : String)
    (now : Nat) (p : Payment)
    (hfind : payments.find? (fun q => q.reference == ref && q.user == u) = some p)
    (hs : p.is_successful = false) :
    VerifyPaymentView.post payments u ref (.networkError e) now =
      { response := { code := 400, success := false
                      message := "Payment verification failed"
                      details := "Network error: " ++ e }
        payments := payments.map (fun q =>
          if q.reference == ref && q.user == u then { p with status := "failed" } else q)
        gateway_called := true } := by
  simp [VerifyPaymentView.post, hfind, hs, PaystackService.verify_transaction,
        Payment.mark_as_failed]

/-- Witness for the amended C4 at the concrete pending payment. -/
theorem C4_network_error_marks_failed_witness :
    ([c4payment].find? (fun q => q.reference == "PAYREF3" && q.user == 3) = some c4payment)
    ∧ (c4payment.is_successful = false)
    ∧ VerifyPaymentView.post [c4payment] 3 "PAYREF3" (.networkError "timeout") 50 =
      { response := { code := 400, success := false
                      message := "Payment verification failed"
                      details := "Network error: " ++ "timeout" }
        payments := [c4payment].map (fun q =>
          if q.reference == "PAYREF3" && q.user == 3 then { c4payment with status := "failed" } else q)
        gateway_called := true } :=
  ⟨by decide, by decide,
   C4_network_error_marks_failed [c4payment] 3 "PAYREF3" "timeout" 50 c4payment
     (by decide) (by decide)⟩

/-- The sample order reassigned to user 3 for the initialization scenario. -/
def c7order : Order := { sampleOrder with user := 3 }

/-- COUNTEREXAMPLE to C7: two gateway failures that differ only in their
error message leave IDENTICAL Payment rows — `mark_as_failed` discards its
reason and the Payment model has no error-message field, so the gateway's
message is surfaced only in the response, never stored on the row. -/
theorem C7_counterexample :
    ((InitializePaymentView.post [] (some c7order) 3 ["PAYX1"] (.fail "Invalid key")).payments
      = (InitializePaymentView.post [] (some c7order) 3 ["PAYX1"] (.fail "Insufficient permissions")).payments)
    ∧ ((InitializePaymentView.post [] (some c7order) 3 ["PAYX1"] (.fail "Invalid key")).payments.map
        (fun p => p.status) = ["failed"])
    ∧ ((InitializePaymentView.post [] (some c7order) 3 ["PAYX1"] (.fail "Invalid key")).response.details
        = "Invalid key")
    ∧ ((InitializePaymentView.post [] (some c7order) 3 ["PAYX1"] (.fail "Insufficient permissions")).response.details
        = "Insufficient permissions")
    ∧ (("Invalid key" : String) ≠ "Insufficient permissions") := by
  refine ⟨rfl, by decide, rfl, rfl, by decide⟩

/-- AMENDED C7: on gateway failure during initiation the just-created Payment
row is marked failed and retained (appended, never deleted, no retry), and
the gateway's error message is surfaced to the caller in the response
details — but it is NOT stored on the Payment row, which has no field for
it. -/
theorem C7_gateway_failure_retains_row (payments : List Payment) (o : Order) (u : Nat)
    (candidates : List String) (ref msg : String)
    (hpaid : o.is_paid = false) (hcancel : o.status ≠ "cancelled") (huser : o.user = u)
    (href : InitializePaymentView.firstFreshReference payments candidates = some ref) :
    InitializePaymentView.post payments (some o) u candidates (.fail msg) =
      { response := { code := 400, success := false
                      message := "Failed to create payment link", details := msg }
        payments := payments ++ [{ reference := ref, order := o, user := u
                                   amount := o.total_amount, currency := "NGN"
                                   status := "failed"
                                   paystack_authorization_url := none
                                   paystack_access_code := none, paid_at := none }] } := by
  have hc : (o.status == "cancelled") = false := by
    simpa using hcancel
  have hu : (o.user != u) = false := by
    simp [huser]
  simp [InitializePaymentView.post, hpaid, hc, hu, href, Payment.mark_as_failed]

/-- Witness for the amended C7 at a concrete failed initialization. -/
theorem C7_gateway_failure_retains_row_witness :
    (c7order.is_paid = false)
    ∧ (c7order.status ≠ "cancelled")
    ∧ (InitializePaymentView.firstFreshReference [] ["PAYX1"] = some "PAYX1")
    ∧ InitializePaymentView.post [] (some c7order) 3 ["PAYX1"] (.fail "Invalid key") =
      { response := { code := 400, success := false
                      message := "Failed to create payment link", details := "Invalid key" }
        payments := [] ++ [{ reference := "PAYX1", order := c7order, user := 3
                             amount := c7order.total_amount, currency := "NGN"
                             status := "failed"
                             paystack_authorization_url := none
                             paystack_access_code := none, paid_at := none }] } :=
  ⟨by decide, by decide, by decide,
   C7_gateway_failure_retains_row [] c7order 3 ["PAYX1"] "PAYX1" "Invalid key"
     (by decide) (by decide) (by decide) (by decide)⟩

/-- The status written by `Order.update_status` is always the requested one,
whatever timestamp or notes branch is taken. -/
theorem update_status_status (o : Order) (s notes : String) (now : Nat) :
    (o.update_status s notes now).status = s := by
  simp only [Order.update_status]
  repeat' split
  all_goals rfl

/-- A pending order with empty history, for the transition scenarios. -/
def c3state : OrderState := { order := sampleOrder, history := [] }

/-- COUNTEREXAMPLE to C3: the code permits the transition pending →
completed (the claim allows only shipped or cancelled from pending): the
request succeeds with 200, the status becomes completed and `completed_at`
is stamped, instead of failing with an invalid-transition error. -/
theorem C3_counterexample :
    ((UpdateOrderStatusView.patch c3state "completed" "" none 5).1.code = 200)
    ∧ ((UpdateOrderStatusView.patch c3state "completed" "" none 5).2.order.status = "completed")
    ∧ ((UpdateOrderStatusView.patch c3state "completed" "" none 5).2.order.completed_at = some 5)
    ∧ (c3state.order.status = "pending") := by
  refine ⟨by decide, by decide, by decide, rfl⟩

/-- AMENDED C3: `completed` and `cancelled` are terminal — any update request
on such an order fails with a 400 validation error and leaves both the order
and its history unchanged; but from `pending` or `shipped` EVERY requested
status among the four choices is permitted (the code checks only the current
status, never the requested transition), the status is overwritten and one
history row is appended. -/
theorem C3_transition_validation (st : OrderState) (requested notes : String)
    (cb : Option Nat) (now : Nat) (hreq : requested ∈ ORDER_STATUS) :
    ((st.order.status = "completed" ∨ st.order.status = "cancelled") →
       UpdateOrderStatusView.patch st requested notes cb now =
         ({ code := 400
            message := if st.order.status = "completed"
              then "Cannot change status of a completed order."
              else "Cannot change status of a cancelled order." }, st))
    ∧ (st.order.status ≠ "completed" → st.order.status ≠ "cancelled" →
       ((UpdateOrderStatusView.patch st requested notes cb now).1.code = 200
        ∧ (UpdateOrderStatusView.patch st requested notes cb now).2.order.status = requested
        ∧ (UpdateOrderStatusView.patch st requested notes cb now).2.history =
            st.history ++ [{ old_status := st.order.status, new_status := requested
                             changed_by := cb, notes := some notes }])) := by
  constructor
  · intro hterm
    rcases hterm with h | h
    · simp [UpdateOrderStatusView.patch, hreq, UpdateOrderStatusSerializer.validate_status, h]
    · have hnc : st.order.status ≠ "completed" := by
        rw [h]; decide
      simp [UpdateOrderStatusView.patch, hreq, UpdateOrderStatusSerializer.validate_status, h, hnc]
  · intro h1 h2
    have hv : UpdateOrderStatusSerializer.validate_status st.order.status requested =
        Except.ok requested := by
      simp [UpdateOrderStatusSerializer.validate_status, h1, h2]
    refine ⟨?_, ?_, ?_⟩
    · simp [UpdateOrderStatusView.patch, hreq, hv]
    · simp [UpdateOrderStatusView.patch, hreq, hv, update_status_status]
    · simp [UpdateOrderStatusView.patch, hreq, hv]

/-- Witness for the amended C3: from a pending order, requesting "shipped"
succeeds; the terminal half is also instantiated on a completed order. -/
theorem C3_transition_validation_witness :
    ("shipped" ∈ ORDER_STATUS)
    ∧ (((sampleOrder.status = "completed" ∨ sampleOrder.status = "cancelled") →
         UpdateOrderStatusView.patch c3state "shipped" "on the way" (some 9) 6 =
           ({ code := 400
              message := if sampleOrder.status = "completed"
                then "Cannot change status of a completed order."
                else "Cannot change status of a cancelled order." }, c3state))
       ∧ (sampleOrder.status ≠ "completed" → sampleOrder.status ≠ "cancelled" →
         ((UpdateOrderStatusView.patch c3state "shipped" "on the way" (some 9) 6).1.code = 200
          ∧ (UpdateOrderStatusView.patch c3state "shipped" "on the way" (some 9) 6).2.order.status = "shipped"
          ∧ (UpdateOrderStatusView.patch c3state "shipped" "on the way" (some 9) 6).2.history =
              c3state.history ++ [{ old_status := sampleOrder.status, new_status := "shipped"
                                    changed_by := some 9, notes := some "on the way" }]))) :=
  ⟨by decide, C3_transition_validation c3state "shipped" "on the way" (some 9) 6 (by decide)⟩

/-- Item A of the spec's worked example: unit price 500, snapshot 500. -/
def foodA : Food := { name := "Item A", price := 500, discount_price := none }

/-- Item B of the spec's worked example: unit price 1200, snapshot 1200. -/
def foodB : Food := { name := "Item B", price := 1200, discount_price := none }

/-- The spec's example cart: 2 × Item A (500) and 1 × Item B (1200), with
snapshots equal to the live prices. -/
def exampleCart : Cart :=
  { user := 1, is_active := true
    items := [{ food := foodA, quantity := 2, price_snapshot := 500
                selected_variant := none, selected_addons := [], notes := none },
              { food := foodB, quantity := 1, price_snapshot := 1200
                selected_variant := none, selected_addons := [], notes := none }] }

/-- A food whose live price (600) no longer matches the 500 snapshot below. -/
def c1food : Food := { name := "Item C", price := 600, discount_price := none }

/-- A cart whose single line was added at snapshot price 500 before the menu
price rose to 600. -/
def c1cart : Cart :=
  { user := 1, is_active := true
    items := [{ food := c1food, quantity := 1, price_snapshot := 500
                selected_variant := none, selected_addons := [], notes := none }] }

/-- COUNTEREXAMPLE to C1: checkout of a cart holding one line with snapshot
price 500 but live price 600 produces total_amount = 600 and an OrderLine
with food_price = 600, while the sum of quantity × snapshot is 500 — the
order totals and line snapshots use the LIVE menu price, not the add-time
snapshot the claim describes. -/
theorem C1_counterexample :
    ((CreateOrderSerializer.create (some c1cart) 1 "12 Main" "0700" none none "123456").map
        (fun r => (r.order.total_amount, r.order_items.map (fun oi => oi.food_price)))
      = Except.ok (600, [600]))
    ∧ (cartSnapshotTotal c1cart = 500)
    ∧ ((600 : Nat) ≠ 500) := by
  refine ⟨rfl, rfl, by decide⟩

/-- AMENDED C1: for every non-empty active cart, checkout creates an order
with total_amount = Σ quantity × the food's CURRENT (live) price,
items_count = Σ quantities, each OrderLine's food_price equal to the food's
current price, and the cart emptied; the totals agree with the spec's
snapshot formula exactly when no live price differs from its snapshot (as in
the 2×500 + 1×1200 = 2200 example). -/
theorem C1_order_totals (cart : Cart) (user : Nat) (addr phone : String)
    (dn note : Option String) (rs : String)
    (haddr : addr ≠ "") (hphone : phone ≠ "") (hne : cart.items ≠ []) :
    ∃ r, CreateOrderSerializer.create (some cart) user addr phone dn note rs = Except.ok r
      ∧ r.order.total_amount = (cart.items.map (fun it => it.quantity * it.food.current_price)).sum
      ∧ r.order.items_count = (cart.items.map (fun it => it.quantity)).sum
      ∧ r.order_items.map (fun oi => oi.food_price) = cart.items.map (fun ci => ci.food.current_price)
      ∧ r.cart_after.items = []
      ∧ ((∀ ci ∈ cart.items, ci.food.current_price = ci.price_snapshot) →
           r.order.total_amount = cartSnapshotTotal cart) := by
  have hlen : ¬ cart.items.length = 0 := by
    simpa [List.length_eq_zero] using hne
  unfold CreateOrderSerializer.create
  rw [if_neg haddr, if_neg hphone]
  dsimp only
  rw [if_neg hlen]
  refine ⟨_, rfl, ?_, ?_, ?_, rfl, ?_⟩
  · simp [Cart.total, Cart.subtotal, CartItem.total_price, CartItem.unit_price]
  · rfl
  · rw [List.map_map]
    rfl
  · intro hall
    show (cart.items.map (fun it => it.total_price)).sum = cartSnapshotTotal cart
    unfold cartSnapshotTotal
    congr 1
    apply List.map_congr_left
    intro ci hci
    simp [CartItem.total_price, CartItem.unit_price, hall ci hci]

/-- Witness for the amended C1 at the spec's example cart, whose live-price
total is 2200 with 3 items. -/
theorem C1_order_totals_witness :
    (("12 Main" : String) ≠ "")
    ∧ ((exampleCart.items.map (fun it => it.quantity * it.food.current_price)).sum = 2200)
    ∧ ((exampleCart.items.map (fun it => it.quantity)).sum = 3)
    ∧ (∃ r, CreateOrderSerializer.create (some exampleCart) 1 "12 Main" "0700" none none "123456" = Except.ok r
        ∧ r.order.total_amount = (exampleCart.items.map (fun it => it.quantity * it.food.current_price)).sum
        ∧ r.order.items_count = (exampleCart.items.map (fun it => it.quantity)).sum
        ∧ r.order_items.map (fun oi => oi.food_price) = exampleCart.items.map (fun ci => ci.food.current_price)
        ∧ r.cart_after.items = []
        ∧ ((∀ ci ∈ exampleCart.items, ci.food.current_price = ci.price_snapshot) →
             r.order.total_amount = cartSnapshotTotal exampleCart)) :=
  ⟨by decide, by decide, by decide,
   C1_order_totals exampleCart 1 "12 Main" "0700" none none "123456"
     (by decide) (by decide) (by decide)⟩

/-- The sample order carrying payment reference PAYREF9, still unpaid. -/
def c2order : Order := { sampleOrder with payment_reference := some "PAYREF9" }

/-- A charge.success webhook body for PAYREF9 over 220000 kobo. -/
def c2body : WebhookBody :=
  { event := "charge.success"
    data := { reference := some "PAYREF9", amount := some 220000 } }

/-- Initial webhook database: the unpaid order, no history. -/
def c2db : WebhookDb := { orders := [c2order], history := [] }

/-- COUNTEREXAMPLE to C2: delivering the same charge.success webhook twice
does NOT produce the end state of delivering it once — after one delivery at
time 100 the order's paid_at is some 100 with one history row, after the
duplicate delivery at time 200 the paid_at has been RE-stamped to some 200
with two history rows: `mark_as_paid` runs unconditionally on every
delivery, so paid_at is not stamped exactly once. -/
theorem C2_counterexample :
    ((PaystackWebhookView.handle_successful_payment c2db c2body 100).map
        (fun r => (r.2.orders.map (fun o => o.paid_at), r.2.history.length))
      = Except.ok ([some 100], 1))
    ∧ (((PaystackWebhookView.handle_successful_payment c2db c2body 100).bind
        (fun r => PaystackWebhookView.handle_successful_payment r.2 c2body 200)).map
        (fun r => (r.2.orders.map (fun o => o.paid_at), r.2.history.length))
      = Except.ok ([some 200], 2))
    ∧ (([some (200 : Nat)], (2 : Nat)) ≠ ([some 100], 1)) := by
  refine ⟨rfl, rfl, by decide⟩

/-- AMENDED C2: re-delivering a charge.success webhook for an order already
marked paid via the same reference returns 200 and changes nothing EXCEPT
that `mark_as_paid` re-stamps paid_at to the (later) delivery time and one
more history row is appended: payment_status, is_paid, paid_amount and the
stored reference keep their values, so the duplicate is a no-op beyond
logging and the paid_at re-stamp. -/
theorem C2_webhook_redelivery (db : WebhookDb) (body : WebhookBody) (now a : Nat)
    (ref : String) (order : Order)
    (hamount : body.data.amount = some a)
    (hdata : body.data.reference = some ref)
    (hfind : db.orders.find? (fun o => o.payment_reference == some ref) = some order)
    (hps : order.payment_status = "paid") (hip : order.is_paid = true)
    (hpa : order.paid_amount = order.total_amount)
    (href : order.payment_reference = some ref) :
    PaystackWebhookView.handle_successful_payment db body now = Except.ok
      ({ code := 200, message := "Payment processed successfully" },
       { orders := db.orders.map (fun o =>
           if o.payment_reference == some ref then { order with paid_at := some now } else o)
         history := db.history ++
           [{ old_status := order.status, new_status := order.status
              changed_by := none
              notes := some ("Payment successful via Paystack. Amount: ₦" ++ toString (a / 100)) }] }) := by
  have hmark : order.mark_as_paid (some ref) now = { order with paid_at := some now } := by
    cases order
    simp only [Order.mark_as_paid]
    simp_all
  simp [PaystackWebhookView.handle_successful_payment, hamount, hdata, hfind, hmark]

/-- The order after the first successful delivery at time 100. -/
def c2paidOrder : Order :=
  { c2order with
    payment_status := "paid"
    is_paid := true
    paid_amount := 2200
    paid_at := some 100 }

/-- Witness for the amended C2: re-delivering the webhook to the
already-paid order at time 200 re-stamps paid_at and appends one more
history row. -/
theorem C2_webhook_redelivery_witness :
    (c2body.data.amount = some 220000)
    ∧ (({ orders := [c2paidOrder], history := [] } : WebhookDb).orders.find?
        (fun o => o.payment_reference == some "PAYREF9") = some c2paidOrder)
    ∧ PaystackWebhookView.handle_successful_payment
        { orders := [c2paidOrder], history := [] } c2body 200 = Except.ok
      ({ code := 200, message := "Payment processed successfully" },
       { orders := [c2paidOrder].map (fun o =>
           if o.payment_reference == some "PAYREF9" then { c2paidOrder with paid_at := some 200 } else o)
         history := [] ++
           [{ old_status := c2paidOrder.status, new_status := c2paidOrder.status
              changed_by := none
              notes := some ("Payment successful via Paystack. Amount: ₦" ++ toString (220000 / 100 : Nat)) }] }) :=
  ⟨rfl, by decide,
   C2_webhook_redelivery { orders := [c2paidOrder], history := [] } c2body 200 220000
     "PAYREF9" c2paidOrder rfl rfl (by decide) (by decide) (by decide) (by decide) (by decide)⟩
